import Mathlib

/-!
Shallow embedding of the passkey-backed wallet connector
(`src/connectors/passkeys-connector.ts`).

The connector's mutable closure state (`kernelClient`, `kernelAccount`), the
durable credential store (the two `idb-keyval` slots keyed by the project id),
the emitted lifecycle events and the calls made into the external SDK boundary
are modelled as an explicit `World` record threaded through every operation.
External SDK calls (`toWebAuthnKey`, `createZeroDevPaymasterClient`,
`toPasskeyValidator`, `createKernelAccount`, `createKernelAccountClient`,
`encodeCalls`, `sponsorUserOperation`, `sendUserOperation`,
`waitForUserOperationReceipt`) are oracles: an `Env` record fixes the outcome
of each as `Except JsError α`, mirroring that any of these `await`ed or
invoked boundary calls can reject in the source.  JavaScript exceptions are
`Except.error`; `try`/`catch` blocks are explicit matches.  JavaScript
truthiness of optional strings (`!tx.to`, `!existingName`) is embedded by
`jsTruthyStr` (both `undefined` and the empty string are falsy).
-/

namespace Passkeys

/-- A configured chain (`viem` chain object); only the id is relevant. -/
structure Chain where
  id : Nat
deriving DecidableEq, Repr

/-- WebAuthn credential material returned by `toWebAuthnKey`; kept abstract. -/
structure WebAuthnKey where
  raw : String
deriving DecidableEq, Repr

/-- A JavaScript `Error` as thrown by the SDK boundary: just its message. -/
structure JsError where
  message : String
deriving DecidableEq, Repr

/-- Errors the connector itself surfaces: plain `Error(message)` values and
`UserRejectedRequestError` (which wraps a cause). -/
inductive ConnError where
  | jsError (message : String)
  | userRejected (message : String)
deriving DecidableEq, Repr

/-- Re-throwing an SDK-boundary error unchanged (it is a plain `Error`). -/
def liftErr (e : JsError) : ConnError := .jsError e.message

/-- The smart account produced by `createKernelAccount`; carries its address. -/
structure KernelAccount where
  address : String
deriving DecidableEq, Repr

/-- The client produced by `createKernelAccountClient`: bound to the account
it was built with and to the chain resolved for this build. -/
structure KernelClient where
  account : KernelAccount
  chain : Chain
deriving DecidableEq, Repr

/-- The connector closure's mutable session variables. -/
structure ConnState where
  kernelClient : Option KernelClient
  kernelAccount : Option KernelAccount
deriving DecidableEq, Repr

/-- The two `idb-keyval` slots used by the connector: the stored WebAuthn key
(`hw-webauthn-<projectId>`) and the stored display name
(`hw-passkey-name-<projectId>`). -/
structure Store where
  webAuthnKey : Option WebAuthnKey
  passkeyName : Option String
deriving DecidableEq, Repr

/-- Lifecycle events emitted on `config.emitter`. -/
inductive Event where
  | connectEvent (accounts : List String) (chainId : Nat)
  | disconnectEvent
  | changeChain (chainId : Nat)
  | changeAccounts (accounts : List String)
deriving DecidableEq, Repr

/-- Tags recording each call made into the external SDK boundary, in order. -/
inductive CallTag where
  | loginCeremony
  | registerCeremony
  | paymasterBuild
  | validatorBuild
  | accountBuild
  | clientBuild
  | encodeCallsOp
  | sponsorOp
  | sendOp
  | waitReceiptOp
deriving DecidableEq, Repr

/-- The full observable world: session variables, durable store, emitted
events and the trace of SDK-boundary calls. -/
structure World where
  st : ConnState
  store : Store
  events : List Event
  trace : List CallTag
deriving DecidableEq, Repr

/-- Record one SDK-boundary call. -/
def World.tag (w : World) (t : CallTag) : World :=
  { w with trace := w.trace ++ [t] }

/-- Emit one lifecycle event. -/
def World.emit (w : World) (e : Event) : World :=
  { w with events := w.events ++ [e] }

/-- `set(passkeyNameStorageKey, n)`. -/
def World.setName (w : World) (n : String) : World :=
  { w with store := { w.store with passkeyName := some n } }

/-- `set(webAuthnStorageKey, k)`. -/
def World.setWebAuthnKey (w : World) (k : WebAuthnKey) : World :=
  { w with store := { w.store with webAuthnKey := some k } }

/-- `del(passkeyNameStorageKey)`. -/
def World.delName (w : World) : World :=
  { w with store := { w.store with passkeyName := none } }

/-- `del(webAuthnStorageKey)`. -/
def World.delWebAuthnKey (w : World) : World :=
  { w with store := { w.store with webAuthnKey := none } }

/-- `PasskeysConnectorOptions` from the source: project id, optional app
name (destructuring default `"Passkeys App"`), optional custom passkey name. -/
structure PasskeysConnectorOptions where
  projectId : String
  appName : Option String
  passkeyName : Option String
deriving DecidableEq, Repr

/-- `appName = "Passkeys App"` destructuring default (only `undefined`
triggers the default). -/
def resolvedAppName (o : PasskeysConnectorOptions) : String :=
  o.appName.getD "Passkeys App"

/-- `const displayName = passkeyName || appName + " - Passkey"`; the
JavaScript `||` also replaces an empty configured name. -/
def resolvedDisplayName (o : PasskeysConnectorOptions) : String :=
  match o.passkeyName with
  | some s => if s = "" then resolvedAppName o ++ " - Passkey" else s
  | none => resolvedAppName o ++ " - Passkey"

/-- The wagmi `config` seen by the connector: its options and the configured
chain list, which wagmi guarantees nonempty (`chains0` is `config.chains[0]`). -/
structure Config where
  options : PasskeysConnectorOptions
  chains0 : Chain
  chainsRest : List Chain
deriving DecidableEq, Repr

/-- `config.chains` as a list. -/
def Config.chains (cfg : Config) : List Chain :=
  cfg.chains0 :: cfg.chainsRest

/-- `config.chains.find((c) => c.id === chainId) || config.chains[0]`: an
absent `chainId` matches nothing, and an unknown id falls back to the first
configured chain. -/
def resolveChain (cfg : Config) (chainId : Option Nat) : Chain :=
  match chainId with
  | some cid => (cfg.chains.find? (fun c => c.id == cid)).getD cfg.chains0
  | none => cfg.chains0

/-- The inner receipt of `waitForUserOperationReceipt` (its `.receipt`). -/
structure ReceiptInner where
  transactionHash : String
deriving DecidableEq, Repr

/-- The envelope returned by `waitForUserOperationReceipt`. -/
structure UserOpReceipt where
  receipt : ReceiptInner
deriving DecidableEq, Repr

/-- Outcomes of every external SDK-boundary call, fixed per operation run:
each models the resolution or rejection of the corresponding `await`ed (or
invoked) call in the source. -/
structure Env where
  paymasterResult : Except JsError Unit
  validatorResult : Except JsError Unit
  accountResult : Except JsError KernelAccount
  clientResult : Except JsError Unit
  loginResult : Except JsError WebAuthnKey
  registerResult : Except JsError WebAuthnKey
  encodeResult : Except JsError String
  sponsorResult : Except JsError Unit
  sendUserOpResult : Except JsError String
  receiptResult : Except JsError UserOpReceipt
deriving Repr

/-- Does `sub` occur as a contiguous run inside the character list? -/
def charListHasSub (sub : List Char) : List Char → Bool
  | [] => sub.isEmpty
  | c :: rest => sub.isPrefixOf (c :: rest) || charListHasSub sub rest

/-- JavaScript `s.includes(sub)`. -/
def strIncludes (s sub : String) : Bool :=
  charListHasSub sub.toList s.toList

/-- JavaScript truthiness of an optional string: `undefined` and `""` are
falsy. -/
def jsTruthyStr : Option String → Bool
  | none => false
  | some s => !(s == "")

/-- The result object `{ accounts, chainId }` returned by the build and by
`connect`/`reconnect`. -/
structure BuildResult where
  accounts : List String
  chainId : Nat
deriving DecidableEq, Repr

/-- `createKernelAccountAndClient(webAuthnKey, chainId?)`: resolves the
chain, then awaits the paymaster client, the passkey validator, the kernel
account (assigning the closure variable `kernelAccount` on success), then
invokes `createKernelAccountClient` (assigning `kernelClient` on success).
Any rejection propagates at the point it occurs; assignments already made
are not rolled back, exactly as in the source. -/
def createKernelAccountAndClient (cfg : Config) (env : Env)
    (_webAuthnKey : WebAuthnKey) (chainId : Option Nat) (w : World) :
    Except ConnError BuildResult × World :=
  let chain := resolveChain cfg chainId
  let w1 := w.tag .paymasterBuild
  match env.paymasterResult with
  | .error e => (.error (liftErr e), w1)
  | .ok _ =>
    let w2 := w1.tag .validatorBuild
    match env.validatorResult with
    | .error e => (.error (liftErr e), w2)
    | .ok _ =>
      let w3 := w2.tag .accountBuild
      match env.accountResult with
      | .error e => (.error (liftErr e), w3)
      | .ok acct =>
        let w4 := { w3 with st := { w3.st with kernelAccount := some acct } }
        let w5 := w4.tag .clientBuild
        match env.clientResult with
        | .error e => (.error (liftErr e), w5)
        | .ok _ =>
          let w6 := { w5 with st := { w5.st with
            kernelClient := some { account := acct, chain := chain } } }
          (.ok { accounts := [acct.address], chainId := chain.id }, w6)

/-- `createPasskeyOwner(username)`: try a login-mode `toWebAuthnKey` with the
configured display name; on success write the display name to the store only
if none is stored (JS-truthily).  If the login attempt rejects, write
`username` to the name store, then try a register-mode `toWebAuthnKey`; a
register rejection whose message contains `"cancelled"` becomes a
`UserRejectedRequestError`, any other one becomes a generic error. -/
def createPasskeyOwner (cfg : Config) (env : Env) (username : String)
    (w : World) : Except ConnError WebAuthnKey × World :=
  let w1 := w.tag .loginCeremony
  match env.loginResult with
  | .ok webAuthnKey =>
      let w2 :=
        if jsTruthyStr w1.store.passkeyName then w1
        else w1.setName (resolvedDisplayName cfg.options)
      (.ok webAuthnKey, w2)
  | .error _ =>
      let w2 := w1.setName username
      let w3 := w2.tag .registerCeremony
      match env.registerResult with
      | .ok key => (.ok key, w3)
      | .error e =>
          if strIncludes e.message "cancelled" then
            (.error (.userRejected e.message), w3)
          else
            (.error (.jsError "Failed to create or authenticate passkey"), w3)

/-- Shared tail of `connect`: build the session from a key, emit the
`connect` event on success. -/
def connectAfterKey (cfg : Config) (env : Env) (chainId : Option Nat)
    (key : WebAuthnKey) (w : World) : Except ConnError BuildResult × World :=
  match createKernelAccountAndClient cfg env key chainId w with
  | (.error e, w') => (.error e, w')
  | (.ok result, w') =>
      (.ok result, w'.emit (.connectEvent result.accounts result.chainId))

/-- `connect({ chainId }?)`: if both closure variables are set, return the
account address with the chain resolved from the requested id, touching
nothing.  Otherwise read the stored key; if absent, fall back to
`createPasskeyOwner("username")` and persist the resulting key; then build
and emit the `connect` event. -/
def connect (cfg : Config) (env : Env) (chainId : Option Nat) (w : World) :
    Except ConnError BuildResult × World :=
  match w.st.kernelClient, w.st.kernelAccount with
  | some _, some acct =>
      let chain := resolveChain cfg chainId
      (.ok { accounts := [acct.address], chainId := chain.id }, w)
  | _, _ =>
      match w.store.webAuthnKey with
      | some key => connectAfterKey cfg env chainId key w
      | none =>
          match createPasskeyOwner cfg env "username" w with
          | (.error e, w') => (.error e, w')
          | (.ok key, w') => connectAfterKey cfg env chainId key (w'.setWebAuthnKey key)

/-- The body of `setup`'s `try` block: if a key is stored and both closure
variables are unset, build the session and emit the `connect` event. -/
def setupAttempt (cfg : Config) (env : Env) (w : World) :
    Except ConnError Unit × World :=
  match w.store.webAuthnKey with
  | some storedKey =>
      match w.st.kernelClient, w.st.kernelAccount with
      | none, none =>
          match createKernelAccountAndClient cfg env storedKey none w with
          | (.error e, w') => (.error e, w')
          | (.ok result, w') =>
              (.ok (), w'.emit (.connectEvent result.accounts result.chainId))
      | _, _ => (.ok (), w)
  | none => (.ok (), w)

/-- `setup()`: run the restoration attempt; its `catch` deletes both stored
records and swallows the error. -/
def setup (cfg : Config) (env : Env) (w : World) :
    Except ConnError Unit × World :=
  match setupAttempt cfg env w with
  | (.ok u, w') => (.ok u, w')
  | (.error _, w') => (.ok (), w'.delWebAuthnKey.delName)

/-- `reconnect()`: requires a stored key (else throws), rebuilds and emits
the `connect` event; nothing is deleted on failure. -/
def reconnect (cfg : Config) (env : Env) (w : World) :
    Except ConnError BuildResult × World :=
  match w.store.webAuthnKey with
  | none => (.error (.jsError "No stored WebAuthn key found"), w)
  | some storedKey =>
      match createKernelAccountAndClient cfg env storedKey none w with
      | (.error e, w') => (.error e, w')
      | (.ok result, w') =>
          (.ok result, w'.emit (.connectEvent result.accounts result.chainId))

/-- `getAccounts()`: the account's address as a singleton, else `[]`. -/
def getAccounts (st : ConnState) : List String :=
  match st.kernelAccount with
  | some acct => [acct.address]
  | none => []

/-- `getChainId()`: throws when no client exists; otherwise returns
`kernelClient.chain.id || config.chains[0].id || 1` with JS-falsy `0`. -/
def getChainId (cfg : Config) (st : ConnState) : Except ConnError Nat :=
  match st.kernelClient with
  | none => .error (.jsError "Kernel client not initialized. Connect first.")
  | some client =>
      .ok (if client.chain.id == 0 then
             (if cfg.chains0.id == 0 then 1 else cfg.chains0.id)
           else client.chain.id)

/-- `getProvider()`: throws unless both closure variables are set; the
returned provider itself is the `providerRequest` dispatcher below, which
re-reads the live closure variables on every call. -/
def getProvider (st : ConnState) : Except ConnError Unit :=
  match st.kernelClient, st.kernelAccount with
  | some _, some _ => .ok ()
  | _, _ => .error (.jsError "Kernel client not initialized. Connect first.")

/-- A transaction request object; `to` (here `toAddr`), `value`, `data` may
each be absent. -/
structure Tx where
  toAddr : Option String
  value : Option Nat
  data : Option String
deriving DecidableEq, Repr

/-- A JSON-RPC-shaped wallet request: `eth_sendTransaction` with its params
array (absent/non-array is `none`, sparse entries are `Option`), or any
other method. -/
inductive RpcRequest where
  | ethSendTransaction (params : Option (List (Option Tx)))
  | otherMethod (method : String)
deriving DecidableEq, Repr

/-- The `eth_sendTransaction` pipeline after validation: `encodeCalls`, then
`sendUserOperation` (whose paymaster wiring first requests
`sponsorUserOperation`), then `waitForUserOperationReceipt`, returning
`receipt.receipt.transactionHash`. -/
def sendTransactionPipeline (env : Env) (w : World) :
    Except ConnError (Option String) × World :=
  let w1 := w.tag .encodeCallsOp
  match env.encodeResult with
  | .error e => (.error (liftErr e), w1)
  | .ok _ =>
      let w2 := w1.tag .sponsorOp
      match env.sponsorResult with
      | .error e => (.error (liftErr e), w2)
      | .ok _ =>
          let w3 := w2.tag .sendOp
          match env.sendUserOpResult with
          | .error e => (.error (liftErr e), w3)
          | .ok _ =>
              let w4 := w3.tag .waitReceiptOp
              match env.receiptResult with
              | .error e => (.error (liftErr e), w4)
              | .ok rcpt => (.ok (some rcpt.receipt.transactionHash), w4)

/-- The provider's `request` handler: `eth_sendTransaction` re-checks the
live closure variables, validates the params array and the first entry's
`to`/`data` (JS-truthily), then runs the pipeline; every other method falls
out of the `switch` and returns `undefined` (`ok none`). -/
def providerRequest (env : Env) (req : RpcRequest) (w : World) :
    Except ConnError (Option String) × World :=
  match req with
  | .otherMethod _ => (.ok none, w)
  | .ethSendTransaction params =>
      match w.st.kernelClient, w.st.kernelAccount with
      | some _, some _ =>
          match params with
          | none => (.error (.jsError "eth_sendTransaction missing transaction parameter"), w)
          | some paramList =>
              match paramList.head? with
              | some (some tx) =>
                  if jsTruthyStr tx.toAddr && jsTruthyStr tx.data then
                    sendTransactionPipeline env w
                  else
                    (.error (.jsError "eth_sendTransaction missing tx params"), w)
              | _ => (.error (.jsError "eth_sendTransaction missing tx params"), w)
      | _, _ => (.error (.jsError "Kernel client not initialized. Connect first."), w)

/-- `switchChain({ chainId })`: unsupported id throws before anything is
touched; otherwise both closure variables are cleared first, then the stored
key is required ("No stored WebAuthn key") and the session rebuilt for the
new chain, emitting a `change` event with the chain id on success. -/
def switchChain (cfg : Config) (env : Env) (chainId : Nat) (w : World) :
    Except ConnError Chain × World :=
  match cfg.chains.find? (fun c => c.id == chainId) with
  | none => (.error (.jsError ("Chain " ++ toString chainId ++ " not supported")), w)
  | some chain =>
      let w1 := { w with st := { kernelClient := none, kernelAccount := none } }
      match w1.store.webAuthnKey with
      | none => (.error (.jsError "No stored WebAuthn key"), w1)
      | some storedKey =>
          match createKernelAccountAndClient cfg env storedKey (some chainId) w1 with
          | (.error e, w2) => (.error e, w2)
          | (.ok _, w2) => (.ok chain, w2.emit (.changeChain chainId))

/-- Sample objects used by the concrete theorems below. -/
def sampleKey : WebAuthnKey := { raw := "stored-key" }

/-- Sample account produced by a successful `createKernelAccount`. -/
def sampleAccount : KernelAccount := { address := "0xabc" }

/-- First configured chain. -/
def chainA : Chain := { id := 1 }

/-- Second configured chain. -/
def chainB : Chain := { id := 2 }

/-- Options with application name `"App"` and no custom passkey name. -/
def sampleOptions : PasskeysConnectorOptions :=
  { projectId := "p1", appName := some "App", passkeyName := none }

/-- Single-chain configuration. -/
def cfg1 : Config := { options := sampleOptions, chains0 := chainA, chainsRest := [] }

/-- Two-chain configuration. -/
def cfg2 : Config := { options := sampleOptions, chains0 := chainA, chainsRest := [chainB] }

/-- Environment in which every SDK-boundary call succeeds. -/
def envAllOk : Env :=
  { paymasterResult := .ok ()
    validatorResult := .ok ()
    accountResult := .ok sampleAccount
    clientResult := .ok ()
    loginResult := .ok sampleKey
    registerResult := .ok sampleKey
    encodeResult := .ok "0xcalldata"
    sponsorResult := .ok ()
    sendUserOpResult := .ok "0xuserophash"
    receiptResult := .ok { receipt := { transactionHash := "0xtxhash" } } }

/-- Environment in which only `createKernelAccountClient` rejects. -/
def envClientFails : Env :=
  { envAllOk with clientResult := .error { message := "client construction failed" } }

/-- Environment in which `toPasskeyValidator` rejects (e.g. network down). -/
def envValidatorFails : Env :=
  { envAllOk with validatorResult := .error { message := "network down" } }

/-- Environment in which login finds nothing and the user cancels the
register ceremony. -/
def envCancelled : Env :=
  { envAllOk with
      loginResult := .error { message := "no credential" }
      registerResult := .error { message := "User cancelled the request" } }

/-- Environment of a fresh device: login rejects, registration succeeds. -/
def envRegisterOk : Env :=
  { envAllOk with loginResult := .error { message := "no passkey found" } }

/-- Fresh world: no session, empty store, nothing emitted. -/
def freshWorld : World :=
  { st := { kernelClient := none, kernelAccount := none }
    store := { webAuthnKey := none, passkeyName := none }
    events := []
    trace := [] }

/-- Fresh session but a stored credential. -/
def storedWorld : World :=
  { freshWorld with store := { webAuthnKey := some sampleKey, passkeyName := none } }

/-- Connected on the first chain, credential stored. -/
def connectedWorldA : World :=
  { st :=
      { kernelClient := some { account := sampleAccount, chain := chainA }
        kernelAccount := some sampleAccount }
    store := { webAuthnKey := some sampleKey, passkeyName := none }
    events := []
    trace := [] }

/-- Connected on the second chain, credential stored. -/
def connectedWorldB : World :=
  { connectedWorldA with st :=
      { kernelClient := some { account := sampleAccount, chain := chainB }
        kernelAccount := some sampleAccount } }

/-- Connected on the first chain but with an empty credential store. -/
def connectedNoStoreWorld : World :=
  { connectedWorldA with store := { webAuthnKey := none, passkeyName := none } }

/-- A concrete transaction request with `to`, `value` and `data` present. -/
def sampleTx : Tx :=
  { toAddr := some "0xdef", value := some 5, data := some "0x01" }

/-- Claim C1, counterexample: with a stored credential and a fresh session,
running `connect` in an environment where only the final
`createKernelAccountClient` step rejects leaves the account installed with no
client, and `getAccounts()` returns its address — refuting "on any failure of
any build step neither is exposed to callers" and "getAccounts() never
returns an address while no client exists". -/
theorem buildAtomicityCounterexample :
    (connect cfg1 envClientFails none storedWorld).1 =
      .error (.jsError "client construction failed") ∧
    (connect cfg1 envClientFails none storedWorld).2.st.kernelClient = none ∧
    getAccounts (connect cfg1 envClientFails none storedWorld).2.st = ["0xabc"] ∧
    (["0xabc"] : List String) ≠ [] :=
  ⟨rfl, rfl, rfl, by decide⟩

/-- Claim C1 (amended): in every execution of the account/client build, if
the build succeeds a complete `{account, client}` pair is installed (the
client bound to that very account and the resolved chain), and on failure no
client is ever installed; the session state is unchanged by the failure
unless the failing step was the final client construction, in which case the
freshly built account remains installed without a client. -/
theorem buildSessionAtomicity (cfg : Config) (env : Env) (key : WebAuthnKey)
    (chainId : Option Nat) (w : World)
    (hC : w.st.kernelClient = none) :
    (∀ r, (createKernelAccountAndClient cfg env key chainId w).1 = .ok r →
      ∃ a, (createKernelAccountAndClient cfg env key chainId w).2.st.kernelAccount = some a ∧
        (createKernelAccountAndClient cfg env key chainId w).2.st.kernelClient =
          some { account := a, chain := resolveChain cfg chainId } ∧
        r = { accounts := [a.address], chainId := (resolveChain cfg chainId).id }) ∧
    (∀ e, (createKernelAccountAndClient cfg env key chainId w).1 = .error e →
      (createKernelAccountAndClient cfg env key chainId w).2.st.kernelClient = none ∧
      ((createKernelAccountAndClient cfg env key chainId w).2.st.kernelAccount
          = w.st.kernelAccount ∨
        ∃ m, env.clientResult = .error m)) := by
  unfold createKernelAccountAndClient
  rcases hp : env.paymasterResult with e | u
  · simp [World.tag, hC]
  · rcases hv : env.validatorResult with e | u
    · simp [World.tag, hC]
    · rcases ha : env.accountResult with e | acct
      · simp [World.tag, hC]
      · rcases hcl : env.clientResult with e | u
        · refine ⟨by simp [World.tag], fun e' _ => ⟨by simp [World.tag, hC], .inr ⟨e, rfl⟩⟩⟩
        · exact ⟨fun r hr => ⟨acct, by simp [World.tag], by simp [World.tag],
            by simpa [World.tag] using hr.symm⟩, by simp [World.tag]⟩

/-- Witness for the amended C1 theorem at a concrete all-success input. -/
theorem buildSessionAtomicityWitness :
    ∃ a, (createKernelAccountAndClient cfg1 envAllOk sampleKey none freshWorld).2.st.kernelAccount
            = some a ∧
      (createKernelAccountAndClient cfg1 envAllOk sampleKey none freshWorld).2.st.kernelClient
            = some { account := a, chain := resolveChain cfg1 none } ∧
      ({ accounts := ["0xabc"], chainId := 1 } : BuildResult)
            = { accounts := [a.address], chainId := (resolveChain cfg1 none).id } :=
  (buildSessionAtomicity cfg1 envAllOk sampleKey none freshWorld rfl).1
    { accounts := ["0xabc"], chainId := 1 } rfl

/-- Claim C2, counterexample: with two configured chains and a live session
on the second one, `connect()` returns the first configured chain's id `1`
rather than the existing session's chain id `2` — refuting "calling connect
returns the existing account addresses and chain id". -/
theorem connectChainIdCounterexample :
    (connect cfg2 envAllOk none connectedWorldB).1 =
      .ok { accounts := ["0xabc"], chainId := 1 } ∧
    connectedWorldB.st.kernelClient.map (fun c => c.chain.id) = some 2 ∧
    (1 : Nat) ≠ 2 :=
  ⟨rfl, rfl, by decide⟩

/-- Claim C2 (amended): while a live account and client exist, `connect`
short-circuits — it returns the existing account's address together with the
chain id resolved from the requested chain id against the configured list
(defaulting to the first configured chain, not necessarily the active
session's chain), leaves the whole world untouched (so no credential-provider
ceremony and no rebuild occurs), and a second call with the same argument
returns the same `{accounts, chainId}`. -/
theorem connectIdempotent (cfg : Config) (env : Env) (chainId : Option Nat)
    (w : World) (c : KernelClient) (a : KernelAccount)
    (hC : w.st.kernelClient = some c) (hA : w.st.kernelAccount = some a) :
    connect cfg env chainId w =
      (.ok { accounts := [a.address], chainId := (resolveChain cfg chainId).id }, w) ∧
    connect cfg env chainId ((connect cfg env chainId w).2) =
      connect cfg env chainId w := by
  have h1 : connect cfg env chainId w =
      (.ok { accounts := [a.address], chainId := (resolveChain cfg chainId).id }, w) := by
    unfold connect
    rw [hC, hA]
  exact ⟨h1, by rw [h1]; exact h1⟩

/-- Witness for the amended C2 theorem on a connected two-chain world. -/
theorem connectIdempotentWitness :
    connect cfg2 envAllOk none connectedWorldB =
      (.ok { accounts := [sampleAccount.address], chainId := (resolveChain cfg2 none).id },
        connectedWorldB) ∧
    connect cfg2 envAllOk none ((connect cfg2 envAllOk none connectedWorldB).2) =
      connect cfg2 envAllOk none connectedWorldB :=
  connectIdempotent cfg2 envAllOk none connectedWorldB
    { account := sampleAccount, chain := chainB } sampleAccount rfl rfl

/-- Claim C3, counterexample: when the login attempt rejects and the user
cancels the register ceremony, `connect` does fail with
`UserRejectedRequestError`, but the display name `"username"` has already
been written to the Credential Store — refuting "no record (neither
credential material nor display name) is written". -/
theorem registerCancellationCounterexample :
    (connect cfg1 envCancelled none freshWorld).1 =
      .error (.userRejected "User cancelled the request") ∧
    (connect cfg1 envCancelled none freshWorld).2.store.passkeyName = some "username" ∧
    some "username" ≠ (none : Option String) :=
  ⟨rfl, rfl, by decide⟩

/-- Claim C3 (amended): when no credential is stored, the login ceremony
rejects and the register ceremony rejects with a message containing
`"cancelled"`, `connect` fails with a distinguishable
`UserRejectedRequestError` carrying that message, and no credential material
is written to the store — but the display name `"username"` has already been
written before the ceremony and is not removed on cancellation. -/
theorem registerCancellation (cfg : Config) (env : Env) (chainId : Option Nat)
    (w : World) (eL eR : JsError)
    (hC : w.st.kernelClient = none)
    (hK : w.store.webAuthnKey = none)
    (hL : env.loginResult = .error eL)
    (hR : env.registerResult = .error eR)
    (hCanc : strIncludes eR.message "cancelled" = true) :
    (connect cfg env chainId w).1 = .error (.userRejected eR.message) ∧
    (connect cfg env chainId w).2.store.webAuthnKey = none ∧
    (connect cfg env chainId w).2.store.passkeyName = some "username" := by
  unfold connect
  rw [hC]
  rcases hA : w.st.kernelAccount with _ | a <;>
    simp [hK, createPasskeyOwner, hL, hR, hCanc, World.tag, World.setName]

/-- Witness for the amended C3 theorem at a concrete cancellation input. -/
theorem registerCancellationWitness :
    (connect cfg1 envCancelled none freshWorld).1 =
      .error (.userRejected "User cancelled the request") ∧
    (connect cfg1 envCancelled none freshWorld).2.store.webAuthnKey = none ∧
    (connect cfg1 envCancelled none freshWorld).2.store.passkeyName = some "username" := by
  have h := registerCancellation cfg1 envCancelled none freshWorld
    { message := "no credential" } { message := "User cancelled the request" }
    rfl rfl rfl rfl (by decide)
  exact h

/-- Claim C4, counterexample: with a stored credential, a `setup` whose build
fails at the final client-construction step swallows the error and deletes
both stored records, but the freshly built account remains installed, so
`getAccounts()` returns its address — refuting "the connector remains
Disconnected". -/
theorem setupCounterexample :
    (setup cfg1 envClientFails storedWorld).1 = .ok () ∧
    (setup cfg1 envClientFails storedWorld).2.store.webAuthnKey = none ∧
    (setup cfg1 envClientFails storedWorld).2.store.passkeyName = none ∧
    (setup cfg1 envClientFails storedWorld).2.st.kernelAccount = some sampleAccount ∧
    getAccounts (setup cfg1 envClientFails storedWorld).2.st = ["0xabc"] ∧
    (["0xabc"] : List String) ≠ [] :=
  ⟨rfl, rfl, rfl, rfl, rfl, by decide⟩

/-- Claim C4 (amended): starting with no session, `setup()` never lets an
exception escape and never runs a WebAuthn ceremony; with no stored
credential it does nothing; with a stored credential, a successful build
installs a complete session and emits the `connect` event, while any build
failure deletes both stored records and leaves no client installed — though
the in-memory account may remain (without any client) when the failure was
at the final client-construction step, so the connector need not be fully
Disconnected. -/
theorem setupBestEffort (cfg : Config) (env : Env) (w : World)
    (hC : w.st.kernelClient = none) (hA : w.st.kernelAccount = none) :
    (setup cfg env w).1 = .ok () ∧
    (w.store.webAuthnKey = none → (setup cfg env w).2 = w) ∧
    (∀ key r, w.store.webAuthnKey = some key →
      (createKernelAccountAndClient cfg env key none w).1 = .ok r →
      (setup cfg env w).2 =
        ((createKernelAccountAndClient cfg env key none w).2.emit
          (.connectEvent r.accounts r.chainId)) ∧
      ((createKernelAccountAndClient cfg env key none w).2.st.kernelClient).isSome = true) ∧
    (∀ key e, w.store.webAuthnKey = some key →
      (createKernelAccountAndClient cfg env key none w).1 = .error e →
      (setup cfg env w).2.store.webAuthnKey = none ∧
      (setup cfg env w).2.store.passkeyName = none ∧
      (setup cfg env w).2.st.kernelClient = none ∧
      ((setup cfg env w).2.st.kernelAccount = none ∨ ∃ m, env.clientResult = .error m) ∧
      (setup cfg env w).2.events = w.events) ∧
    (CallTag.loginCeremony ∈ (setup cfg env w).2.trace →
      CallTag.loginCeremony ∈ w.trace) ∧
    (CallTag.registerCeremony ∈ (setup cfg env w).2.trace →
      CallTag.registerCeremony ∈ w.trace) := by
  rcases hK : w.store.webAuthnKey with _ | key
  · simp [setup, setupAttempt, hK]
  · rcases hp : env.paymasterResult with e | u <;>
      rcases hv : env.validatorResult with e2 | u2 <;>
        rcases ha : env.accountResult with e3 | acct <;>
          rcases hcl : env.clientResult with e4 | u4 <;>
            simp [setup, setupAttempt, createKernelAccountAndClient, hK, hC, hA,
              hp, hv, ha, hcl, World.tag, World.emit, World.delWebAuthnKey,
              World.delName]

/-- Witness for the amended C4 theorem at a concrete client-step failure. -/
theorem setupBestEffortWitness :
    (setup cfg1 envClientFails storedWorld).2.store.webAuthnKey = none ∧
    (setup cfg1 envClientFails storedWorld).2.store.passkeyName = none ∧
    (setup cfg1 envClientFails storedWorld).2.st.kernelClient = none ∧
    ((setup cfg1 envClientFails storedWorld).2.st.kernelAccount = none ∨
      ∃ m, envClientFails.clientResult = .error m) ∧
    (setup cfg1 envClientFails storedWorld).2.events = storedWorld.events :=
  (setupBestEffort cfg1 envClientFails storedWorld rfl rfl).2.2.2.1 sampleKey
    (.jsError "client construction failed") rfl rfl

/-- Claim C5, counterexample: with a credential stored and a build that fails
(validator step rejects), `reconnect` propagates the error while the stored
record is still present afterwards — refuting "any stale stored record is
deleted before the error propagates". -/
theorem reconnectCounterexample :
    (reconnect cfg1 envValidatorFails storedWorld).1 = .error (.jsError "network down") ∧
    (reconnect cfg1 envValidatorFails storedWorld).2.store.webAuthnKey = some sampleKey :=
  ⟨rfl, rfl⟩

/-- Claim C5 (amended): `reconnect` with no stored credential fails with
"No stored WebAuthn key found" leaving the world untouched, and it never
runs a WebAuthn ceremony (no fallback to interactive registration); when a
build failure propagates, the stored record is left in place, not deleted. -/
theorem reconnectSpec (cfg : Config) (env : Env) (w : World) :
    (w.store.webAuthnKey = none →
      reconnect cfg env w = (.error (.jsError "No stored WebAuthn key found"), w)) ∧
    (∀ key e, w.store.webAuthnKey = some key →
      (reconnect cfg env w).1 = .error e →
      (reconnect cfg env w).2.store.webAuthnKey = some key) ∧
    (CallTag.loginCeremony ∈ (reconnect cfg env w).2.trace →
      CallTag.loginCeremony ∈ w.trace) ∧
    (CallTag.registerCeremony ∈ (reconnect cfg env w).2.trace →
      CallTag.registerCeremony ∈ w.trace) := by
  rcases hK : w.store.webAuthnKey with _ | key
  · simp [reconnect, hK]
  · rcases hp : env.paymasterResult with e | u <;>
      rcases hv : env.validatorResult with e2 | u2 <;>
        rcases ha : env.accountResult with e3 | acct <;>
          rcases hcl : env.clientResult with e4 | u4 <;>
            simp [reconnect, createKernelAccountAndClient, hK, hp, hv, ha, hcl,
              World.tag, World.emit]

/-- Witness for the amended C5 theorem at a concrete build failure. -/
theorem reconnectSpecWitness :
    (reconnect cfg1 envValidatorFails storedWorld).2.store.webAuthnKey = some sampleKey :=
  (reconnectSpec cfg1 envValidatorFails storedWorld).2.1 sampleKey
    (.jsError "network down") rfl rfl

/-- Claim C6, counterexample: switching a connected connector to a supported
chain when the final client-construction step fails discards the old session
but leaves the freshly built account installed without a client, so
`getAccounts()` is nonempty — refuting "the connector ends Disconnected". -/
theorem switchChainCounterexample :
    (switchChain cfg2 envClientFails 2 connectedWorldA).1 =
      .error (.jsError "client construction failed") ∧
    (switchChain cfg2 envClientFails 2 connectedWorldA).2.st.kernelClient = none ∧
    (switchChain cfg2 envClientFails 2 connectedWorldA).2.st.kernelAccount =
      some sampleAccount ∧
    getAccounts (switchChain cfg2 envClientFails 2 connectedWorldA).2.st = ["0xabc"] ∧
    (["0xabc"] : List String) ≠ [] :=
  ⟨rfl, rfl, rfl, rfl, by decide⟩

/-- Claim C6 (amended): `switchChain` to an id outside the configured set
throws "Chain … not supported" leaving the whole world (session included)
untouched; to a supported id it discards the current session first and
rebuilds from the stored credential, so any client installed afterwards is
for the new chain (never a stale one), a success returns the new chain with
a `change` event emitted, and a failure leaves no client installed — the
connector ends Disconnected except that a failure at the final
client-construction step leaves a fresh account for the new chain installed
without a client. -/
theorem switchChainSpec (cfg : Config) (env : Env) (w : World) (cid : Nat) :
    (cfg.chains.find? (fun c => c.id == cid) = none →
      switchChain cfg env cid w =
        (.error (.jsError ("Chain " ++ toString cid ++ " not supported")), w)) ∧
    (∀ chain, cfg.chains.find? (fun c => c.id == cid) = some chain →
      (∀ c, (switchChain cfg env cid w).2.st.kernelClient = some c → c.chain = chain) ∧
      (∀ e, (switchChain cfg env cid w).1 = .error e →
        (switchChain cfg env cid w).2.st.kernelClient = none ∧
        ((switchChain cfg env cid w).2.st.kernelAccount = none ∨
          ∃ m, env.clientResult = .error m)) ∧
      (∀ ch, (switchChain cfg env cid w).1 = .ok ch → ch = chain ∧
        ((switchChain cfg env cid w).2.st.kernelClient).isSome = true ∧
        (switchChain cfg env cid w).2.events = w.events ++ [Event.changeChain cid])) := by
  rcases hf : cfg.chains.find? (fun c => c.id == cid) with _ | chain
  · simp [switchChain, hf]
  · refine ⟨by simp [hf], fun chain' hchain' => ?_⟩
    obtain rfl : chain = chain' := Option.some.inj (hf.symm.trans hchain')
    rcases hK : w.store.webAuthnKey with _ | key
    · simp [switchChain, hf, hK]
    · rcases hp : env.paymasterResult with e | u <;>
        rcases hv : env.validatorResult with e2 | u2 <;>
          rcases ha : env.accountResult with e3 | acct <;>
            rcases hcl : env.clientResult with e4 | u4 <;>
              simp [switchChain, createKernelAccountAndClient, resolveChain, hf, hK,
                hp, hv, ha, hcl, World.tag, World.emit]

/-- Witness for the amended C6 theorem at a concrete client-step failure. -/
theorem switchChainSpecWitness :
    (switchChain cfg2 envClientFails 2 connectedWorldA).2.st.kernelClient = none ∧
    ((switchChain cfg2 envClientFails 2 connectedWorldA).2.st.kernelAccount = none ∨
      ∃ m, envClientFails.clientResult = .error m) :=
  ((switchChainSpec cfg2 envClientFails connectedWorldA 2).2 chainB rfl).2.1
    (.jsError "client construction failed") rfl

/-- Claim C7, counterexample: on a disconnected connector, `getChainId`
throws "Kernel client not initialized. Connect first." instead of returning
the first configured chain's id `1` — refuting "returns the first configured
chain's id when Disconnected (rather than failing)". -/
theorem getChainIdCounterexample :
    getChainId cfg1 freshWorld.st =
      .error (.jsError "Kernel client not initialized. Connect first.") ∧
    cfg1.chains0.id = 1 :=
  ⟨rfl, rfl⟩

/-- Claim C7 (amended): `getChainId` returns the active session's chain id
whenever a client exists (its JS-falsy fallback to the first configured
chain is dead code for any nonzero chain id), and throws "Kernel client not
initialized. Connect first." whenever no client exists — including while
Disconnected. -/
theorem getChainIdSpec (cfg : Config) (st : ConnState) :
    (st.kernelClient = none →
      getChainId cfg st =
        .error (.jsError "Kernel client not initialized. Connect first.")) ∧
    (∀ c, st.kernelClient = some c → c.chain.id ≠ 0 →
      getChainId cfg st = .ok c.chain.id) := by
  rcases h : st.kernelClient with _ | c
  · simp [getChainId, h]
  · refine ⟨by simp [h], fun c' hc' hne => ?_⟩
    obtain rfl := Option.some.inj hc'
    simp [getChainId, h, beq_iff_eq, hne]

/-- Witness for the amended C7 theorem on a connected world. -/
theorem getChainIdSpecWitness : getChainId cfg2 connectedWorldB.st = .ok 2 :=
  (getChainIdSpec cfg2 connectedWorldB.st).2
    { account := sampleAccount, chain := chainB } rfl (by decide)

/-- Claim C8 (confirmed): while Disconnected both obtaining the provider and
dispatching `eth_sendTransaction` fail with the not-connected error; any
unsupported method returns `undefined` untouched; while Connected the
dispatcher validates the params array and the first transaction's `to`/`data`
(throwing when absent), then encodes the call, requests paymaster sponsorship,
submits the user operation and waits for the bundler's receipt — in that
order — returning the reported transaction hash. -/
theorem requestDispatcherSpec (env : Env) (w : World) :
    ((w.st.kernelClient = none ∨ w.st.kernelAccount = none) →
      getProvider w.st = .error (.jsError "Kernel client not initialized. Connect first.") ∧
      ∀ p, (providerRequest env (.ethSendTransaction p) w).1 =
        .error (.jsError "Kernel client not initialized. Connect first.")) ∧
    (∀ m, providerRequest env (.otherMethod m) w = (.ok none, w)) ∧
    (∀ c a, w.st.kernelClient = some c → w.st.kernelAccount = some a →
      getProvider w.st = .ok () ∧
      (providerRequest env (.ethSendTransaction none) w).1 =
        .error (.jsError "eth_sendTransaction missing transaction parameter") ∧
      (∀ pl tx, pl.head? = some (some tx) →
        (jsTruthyStr tx.toAddr && jsTruthyStr tx.data) = false →
        (providerRequest env (.ethSendTransaction (some pl)) w).1 =
          .error (.jsError "eth_sendTransaction missing tx params")) ∧
      (∀ pl tx cd uh rc, pl.head? = some (some tx) →
        jsTruthyStr tx.toAddr = true → jsTruthyStr tx.data = true →
        env.encodeResult = .ok cd → env.sponsorResult = .ok () →
        env.sendUserOpResult = .ok uh → env.receiptResult = .ok rc →
        providerRequest env (.ethSendTransaction (some pl)) w =
          (.ok (some rc.receipt.transactionHash),
            { w with trace := w.trace ++
              [CallTag.encodeCallsOp, CallTag.sponsorOp, CallTag.sendOp,
                CallTag.waitReceiptOp] }))) := by
  refine ⟨?_, fun m => rfl, ?_⟩
  · rintro (h | h)
    · rcases hA : w.st.kernelAccount with _ | a <;>
        simp [getProvider, providerRequest, h, hA]
    · rcases hCl : w.st.kernelClient with _ | c <;>
        simp [getProvider, providerRequest, h, hCl]
  · intro c a hc ha
    refine ⟨by simp [getProvider, hc, ha], by simp [providerRequest, hc, ha], ?_, ?_⟩
    · intro pl tx hhead hfalse
      simp [providerRequest, hc, ha, hhead, hfalse]
    · intro pl tx cd uh rc hhead hto hdata henc hsp hsend hrc
      simp [providerRequest, sendTransactionPipeline, hc, ha, hhead, hto, hdata,
        henc, hsp, hsend, hrc, World.tag, List.append_assoc]

/-- Witness for the C8 theorem on a connected world with every boundary call
succeeding. -/
theorem requestDispatcherSpecWitness :
    providerRequest envAllOk (.ethSendTransaction (some [some sampleTx])) connectedWorldA =
      (.ok (some "0xtxhash"),
        { connectedWorldA with trace := connectedWorldA.trace ++
          [CallTag.encodeCallsOp, CallTag.sponsorOp, CallTag.sendOp,
            CallTag.waitReceiptOp] }) :=
  ((requestDispatcherSpec envAllOk connectedWorldA).2.2
      { account := sampleAccount, chain := chainA } sampleAccount rfl rfl).2.2.2
    [some sampleTx] sampleTx "0xcalldata" "0xuserophash"
    { receipt := { transactionHash := "0xtxhash" } }
    rfl rfl rfl rfl rfl rfl rfl

/-- The build never touches the credential store. -/
theorem buildStoreEq (cfg : Config) (env : Env) (key : WebAuthnKey)
    (chainId : Option Nat) (w : World) :
    (createKernelAccountAndClient cfg env key chainId w).2.store = w.store := by
  unfold createKernelAccountAndClient
  rcases env.paymasterResult with e | u <;>
    rcases env.validatorResult with e2 | u2 <;>
      rcases env.accountResult with e3 | acct <;>
        rcases env.clientResult with e4 | u4 <;>
          simp [World.tag]

/-- The build-and-emit tail of `connect` never touches the credential store. -/
theorem connectAfterKeyStore (cfg : Config) (env : Env) (chainId : Option Nat)
    (key : WebAuthnKey) (w : World) :
    (connectAfterKey cfg env chainId key w).2.store = w.store := by
  unfold connectAfterKey
  rcases hb : createKernelAccountAndClient cfg env key chainId w with ⟨res, w'⟩
  have hs : w'.store = w.store := by
    have h := buildStoreEq cfg env key chainId w
    rw [hb] at h
    exact h
  cases res <;> simp [World.emit, hs]

/-- Claim C9, counterexample: a fresh-device `connect` (login rejects,
registration succeeds) with app name `"App"` and no custom passkey name
leaves the store containing the hardcoded name `"username"`, not the default
`"App - Passkey"` — refuting "the store contains the default name derived
from the application name" (and no naming prompt is involved at all). -/
theorem displayNameCounterexample :
    (connect cfg1 envRegisterOk none freshWorld).1 =
      .ok { accounts := ["0xabc"], chainId := 1 } ∧
    (connect cfg1 envRegisterOk none freshWorld).2.store.passkeyName = some "username" ∧
    resolvedDisplayName cfg1.options = "App - Passkey" ∧
    "username" ≠ "App - Passkey" :=
  ⟨rfl, rfl, rfl, by decide⟩

/-- Claim C9 (amended): on a fresh `connect` with nothing stored, if the
login-mode ceremony succeeds the configured default display name is written
only when no (JS-truthy) name is already stored — a stored name is never
overwritten; if the login attempt rejects, the register path writes the
hardcoded string `"username"` to the store before the ceremony, with no
user prompt and regardless of the configured names. -/
theorem displayNamePersistence (cfg : Config) (env : Env) (chainId : Option Nat)
    (w : World)
    (hC : w.st.kernelClient = none)
    (hK : w.store.webAuthnKey = none) :
    (∀ k, env.loginResult = .ok k →
      (connect cfg env chainId w).2.store.passkeyName =
        (if jsTruthyStr w.store.passkeyName then w.store.passkeyName
         else some (resolvedDisplayName cfg.options))) ∧
    (∀ e, env.loginResult = .error e →
      (connect cfg env chainId w).2.store.passkeyName = some "username") := by
  constructor
  · intro k hk
    unfold connect
    rw [hC]
    rcases hA : w.st.kernelAccount with _ | a <;>
      · simp only [hK, createPasskeyOwner, hk, World.tag]
        split <;>
          simp [connectAfterKeyStore, World.setWebAuthnKey, World.setName]
  · intro e he
    unfold connect
    rw [hC]
    rcases hr : env.registerResult with e2 | key
    · cases hcanc : strIncludes e2.message "cancelled" <;>
        rcases hA : w.st.kernelAccount with _ | a <;>
          simp [hK, createPasskeyOwner, he, hr, hcanc, World.tag, World.setName,
            connectAfterKeyStore, World.setWebAuthnKey]
    · rcases hA : w.st.kernelAccount with _ | a <;>
        simp [hK, createPasskeyOwner, he, hr, World.tag, World.setName,
          connectAfterKeyStore, World.setWebAuthnKey]

/-- Witness for the amended C9 theorem on a fresh device whose registration
succeeds. -/
theorem displayNamePersistenceWitness :
    (connect cfg1 envRegisterOk none freshWorld).2.store.passkeyName = some "username" :=
  (displayNamePersistence cfg1 envRegisterOk none freshWorld rfl rfl).2
    { message := "no passkey found" } rfl

/-- Claim C10 (confirmed): `switchChain` to a supported chain while no
credential record is stored throws "No stored WebAuthn key" only after both
session variables have been cleared, so a previously Connected connector
ends Disconnected with `getAccounts()` returning `[]`. -/
theorem switchChainMissingCredential (cfg : Config) (env : Env) (w : World)
    (cid : Nat) (chain : Chain) (c : KernelClient) (a : KernelAccount)
    (hFind : cfg.chains.find? (fun ch => ch.id == cid) = some chain)
    (hK : w.store.webAuthnKey = none)
    (hC : w.st.kernelClient = some c) (hA : w.st.kernelAccount = some a) :
    (switchChain cfg env cid w).1 = .error (.jsError "No stored WebAuthn key") ∧
    (switchChain cfg env cid w).2.st.kernelClient = none ∧
    (switchChain cfg env cid w).2.st.kernelAccount = none ∧
    getAccounts (switchChain cfg env cid w).2.st = [] := by
  simp [switchChain, hFind, hK, getAccounts]

/-- Witness for the C10 theorem on a connected world with an empty store. -/
theorem switchChainMissingCredentialWitness :
    (switchChain cfg2 envAllOk 2 connectedNoStoreWorld).1 =
      .error (.jsError "No stored WebAuthn key") ∧
    (switchChain cfg2 envAllOk 2 connectedNoStoreWorld).2.st.kernelClient = none ∧
    (switchChain cfg2 envAllOk 2 connectedNoStoreWorld).2.st.kernelAccount = none ∧
    getAccounts (switchChain cfg2 envAllOk 2 connectedNoStoreWorld).2.st = [] :=
  switchChainMissingCredential cfg2 envAllOk connectedNoStoreWorld 2 chainB
    { account := sampleAccount, chain := chainA } sampleAccount rfl rfl rfl rfl

end Passkeys
